import Mathlib

/-!
Verification development for the SDSReluFields training pipelines.

The definitions below shallowly embed the numerical fragments of
`thre3d_atom/modules/sds_trainer.py` and
`thre3d_atom/modules/attn_grid_trainer.py`: tensors become lists of
rationals (or reals where the source applies `sigmoid`/`sqrt`), the
trainer prefixes with their `assert` statements become `Except`-valued
traces, and the post-stage grid refinement becomes a masked list update.

The volumetric ray-marching renderer itself (ray generator, grid
sampler, field evaluator, compositor) is not part of the two trainer
modules; those components are modelled from the specification text and
are marked as such in their doc comments.
-/

/- ----------------------------------------------------------------- -/
/- Batching (sds_trainer.py line 345, attn_grid_trainer.py line 303) -/
/- ----------------------------------------------------------------- -/

/-- Embeds `batch_size_in_images = int(ray_batch_size / (im_h * im_w))`
from `sds_trainer.py` line 345 and `attn_grid_trainer.py` line 303.
Python's true division of non-negative integers followed by `int(...)`
truncation is modelled as the floor of the exact rational quotient. -/
def batch_size_in_images (ray_batch_size im_h im_w : ℕ) : ℕ :=
  ⌊(ray_batch_size : ℚ) / ((im_h : ℚ) * (im_w : ℚ))⌋₊

/- ----------------------------------------------------------------- -/
/- Effect-trace model of the trainer prefixes (asserts, optimizer)    -/
/- ----------------------------------------------------------------- -/

/-- Observable side effects of the trainer procedures that the claims
talk about: creating output directories, creating the Adam optimizer,
saving a checkpoint, and running a training iteration. -/
inductive TrainEvent where
  | createOutputDir
  | createOptimizer
  | saveCheckpoint
  | runTrainIteration
  deriving DecidableEq, Repr

/-- Python exceptions relevant to the claims. -/
inductive PyExn where
  | assertionError
  | typeError
  deriving DecidableEq, Repr

/-- A Python `assert cond`: succeeds when `cond` holds, otherwise
raises `AssertionError`. -/
def pyAssert (cond : Bool) : Except PyExn Unit :=
  if cond then Except.ok () else Except.error PyExn.assertionError

/-- Prefix of `train_sh_vox_grid_vol_mod_with_posed_images_and_sds`
(`sds_trainer.py` lines 140-281, 513): the render-procedure assert
(line 140), the prompt assert `sds_prompt != "none"` (lines 144-146),
then the effects the claim mentions, in source order: output-directory
creation (lines 213-219), optimizer creation (line 278), checkpoint
saving (line 513). -/
def sds_trainer_setup (render_proc_ok : Bool) (sds_prompt : String) :
    Except PyExn (List TrainEvent) := do
  pyAssert render_proc_ok
  pyAssert (sds_prompt != "none")
  pure [TrainEvent.createOutputDir, TrainEvent.createOptimizer, TrainEvent.saveCheckpoint]

/-- Prefix of `refine_edited_relu_field` (`attn_grid_trainer.py` lines
132-142, 193-195, 237, 484): the `isinstance` assert (line 132), the
render-procedure assert (line 136), the prompt assert
`prompt != "none"` (lines 140-142), then the effects in source order. -/
def attn_trainer_setup (repr_ok render_proc_ok : Bool) (prompt : String) :
    Except PyExn (List TrainEvent) := do
  pyAssert repr_ok
  pyAssert render_proc_ok
  pyAssert (prompt != "none")
  pure [TrainEvent.createOutputDir, TrainEvent.createOptimizer, TrainEvent.saveCheckpoint]

/-- Python values appearing in the optimizer parameter-group setup:
floats, tensor references (hashable), dicts and sets (unhashable). -/
inductive PyVal where
  | float (q : ℚ)
  | tensorRef (n : ℕ)
  | dict (entries : List (String × PyVal))
  | set (elems : List PyVal)

/-- Python hashability: dicts and sets are unhashable, floats and
tensors are hashable. -/
def PyVal.hashable : PyVal → Bool
  | PyVal.float _ => true
  | PyVal.tensorRef _ => true
  | PyVal.dict _ => false
  | PyVal.set _ => false

/-- Construction of a Python set literal `{e1, ..., en}`: raises
`TypeError` when any element is unhashable. -/
def mkPySet (elems : List PyVal) : Except PyExn PyVal :=
  if elems.all PyVal.hashable then Except.ok (PyVal.set elems)
  else Except.error PyExn.typeError

/-- Embeds the per-stage optimizer setup of `sds_trainer.py` lines
270-281 and the subsequent iteration loop (line 307).  The source line
`params.append({{"params": logvars, "lr": current_stage_lr}})` (line
276) builds a Python set literal whose single element is a dict, so its
evaluation is modelled through `mkPySet`.  On success the returned
trace records the optimizer creation (line 278) followed by a training
iteration (line 307). -/
def adam_params_setup (use_uncertainty : Bool) (current_stage_lr : ℚ) :
    Except PyExn (List PyVal × List TrainEvent) := do
  let params : List PyVal :=
    [PyVal.dict [("params", PyVal.tensorRef 0), ("lr", PyVal.float current_stage_lr)]]
  if use_uncertainty then
    let logvars_group ← mkPySet
      [PyVal.dict [("params", PyVal.tensorRef 1), ("lr", PyVal.float current_stage_lr)]]
    pure (params ++ [logvars_group],
      [TrainEvent.createOptimizer, TrainEvent.runTrainIteration])
  else
    pure (params, [TrainEvent.createOptimizer, TrainEvent.runTrainIteration])

/- ----------------------------------------------------------------- -/
/- Post-stage grid refinement (attn_grid_trainer.py lines 521-532)    -/
/- ----------------------------------------------------------------- -/

/-- Embeds the boolean-mask assignment
`new[keep_mask] = regular[keep_mask]` with
`keep_mask = attn != 0` (`attn_grid_trainer.py` lines 524-532): at each
voxel the current value is kept where the attention value is zero and
replaced by the reference value where it is non-zero. -/
def masked_replace {α : Type} (attn : List ℚ) (current reference : List α) : List α :=
  List.zipWith (fun a p => if a ≠ 0 then p.2 else p.1) attn (current.zip reference)

/-- Embeds the whole refinement block of `refine_edited_relu_field`
(`attn_grid_trainer.py` lines 521-532): densities and per-voxel feature
vectors of `vol_mod_output` are overwritten from the detached grids of
`vol_mod_ref` exactly on the voxels where `vol_mod_output`'s attention
grid is non-zero. -/
def refine_edited_grids (attn densities_out densities_ref : List ℚ)
    (features_out features_ref : List (List ℚ)) :
    List ℚ × List (List ℚ) :=
  (masked_replace attn densities_out densities_ref,
   masked_replace attn features_out features_ref)

/- ----------------------------------------------------------------- -/
/- Renderer model (components not under src/, modelled from the spec) -/
/- ----------------------------------------------------------------- -/

/-- Modelled from the spec: a camera ray with an origin and a direction
(the implementation of `cast_rays` in
`thre3d_atom/rendering/volumetric/utils/misc.py` is not part of the
provided sources). -/
structure Ray where
  origin : ℚ × ℚ × ℚ
  direction : ℚ × ℚ × ℚ
  deriving DecidableEq, Repr

/-- Modelled from the spec: pinhole camera intrinsics with an image
height, an image width and a focal length. -/
structure CameraIntrinsics where
  height : ℕ
  width : ℕ
  focal : ℚ
  deriving DecidableEq, Repr

/-- Modelled from the spec: a camera pose given by a rotation matrix
(three rows) and a translation vector. -/
structure CameraPose where
  rotation : (ℚ × ℚ × ℚ) × (ℚ × ℚ × ℚ) × (ℚ × ℚ × ℚ)
  translation : ℚ × ℚ × ℚ
  deriving DecidableEq, Repr

/-- Dot product of two 3-vectors. -/
def dot3 (a b : ℚ × ℚ × ℚ) : ℚ :=
  a.1 * b.1 + a.2.1 * b.2.1 + a.2.2 * b.2.2

/-- Application of a rotation matrix (given by rows) to a 3-vector. -/
def rotate3 (rows : (ℚ × ℚ × ℚ) × (ℚ × ℚ × ℚ) × (ℚ × ℚ × ℚ)) (v : ℚ × ℚ × ℚ) :
    ℚ × ℚ × ℚ :=
  (dot3 rows.1 v, dot3 rows.2.1 v, dot3 rows.2.2 v)

/-- Modelled from the spec ("converts a camera pose + intrinsics into
per-pixel ray origins/directions"): the ray through pixel `(x, y)`
starts at the camera centre and points along the pinhole direction of
that pixel, rotated into world coordinates. -/
def pixel_ray (intrinsics : CameraIntrinsics) (pose : CameraPose) (x y : ℕ) : Ray :=
  let dir_cam : ℚ × ℚ × ℚ :=
    (((x : ℚ) - (intrinsics.width : ℚ) / 2) / intrinsics.focal,
     -(((y : ℚ) - (intrinsics.height : ℚ) / 2) / intrinsics.focal),
     -1)
  { origin := pose.translation, direction := rotate3 pose.rotation dir_cam }

/-- Modelled from the spec: `cast_rays` produces the height-by-width
grid of per-pixel rays for a camera pose and intrinsics. -/
def cast_rays (intrinsics : CameraIntrinsics) (pose : CameraPose) :
    List (List Ray) :=
  (List.range intrinsics.height).map fun y =>
    (List.range intrinsics.width).map fun x => pixel_ray intrinsics pose x y

/-- Modelled from the spec: `flatten_rays` flattens the pixel grid of
rays into a single list. -/
def flatten_rays (rays : List (List Ray)) : List Ray :=
  rays.flatten

/-- Modelled from the spec ("marches each ray through the voxel grid's
bounding volume, producing ordered sample points and inter-sample
distances"): the distances along the ray of `num_samples` uniformly
spaced samples inside the intersection interval `[t_near, t_far]`. -/
def sample_distances (t_near t_far : ℚ) (num_samples : ℕ) : List ℚ :=
  (List.range num_samples).map fun i : ℕ =>
    t_near + (i : ℚ) * ((t_far - t_near) / (num_samples : ℚ))

/-- The point at parameter `t` along a ray. -/
def point_on_ray (r : Ray) (t : ℚ) : ℚ × ℚ × ℚ :=
  (r.origin.1 + t * r.direction.1,
   r.origin.2.1 + t * r.direction.2.1,
   r.origin.2.2 + t * r.direction.2.2)

/-- Inter-sample distances: the differences between consecutive sample
distances along a ray. -/
def sample_deltas (ts : List ℚ) : List ℚ :=
  List.zipWith (fun a b => b - a) ts ts.tail

/-- Modelled from the spec: the grid sampler returns, for a ray whose
intersection with the bounding volume is `[t_near, t_far]`, the sample
points, their distances along the ray, and the inter-sample
distances. -/
def grid_sampler (r : Ray) (t_near t_far : ℚ) (num_samples : ℕ) :
    List (ℚ × ℚ × ℚ) × List ℚ × List ℚ :=
  ((sample_distances t_near t_far num_samples).map (point_on_ray r),
   sample_distances t_near t_far num_samples,
   sample_deltas (sample_distances t_near t_far num_samples))

/-- One ray sample fed to the compositor: the interpolated density, the
distance to the next sample, and the colour/feature/depth channel
values contributed at this sample. -/
structure RaySample where
  density : ℚ
  delta : ℚ
  colour : ℚ
  feature : ℚ
  depth : ℚ
  deriving DecidableEq, Repr

/-- The alpha value of one sample, obtained from its density and its
inter-sample distance by the density-to-alpha conversion `alpha_of`. -/
def sample_alpha (alpha_of : ℚ → ℚ → ℚ) (s : RaySample) : ℚ :=
  alpha_of s.density s.delta

/-- Front-to-back compositing fold carrying the accumulated
transmittance: each sample contributes its channel values weighted by
`transmittance * alpha`, and attenuates the transmittance by
`(1 - alpha)` for the samples behind it. -/
def composite_aux (alpha_of : ℚ → ℚ → ℚ) :
    List RaySample → ℚ → ℚ × ℚ × ℚ
  | [], _ => (0, 0, 0)
  | s :: rest, transmittance =>
    let alpha := sample_alpha alpha_of s
    let weight := transmittance * alpha
    let acc := composite_aux alpha_of rest (transmittance * (1 - alpha))
    (weight * s.colour + acc.1,
     weight * s.feature + acc.2.1,
     weight * s.depth + acc.2.2)

/-- Modelled from the spec ("converts per-sample densities into alpha
values and accumulates weighted color/feature/depth via front-to-back
alpha compositing"): the compositor processes the samples front to
back starting from full transmittance. -/
def alpha_composite (alpha_of : ℚ → ℚ → ℚ) (samples : List RaySample) :
    ℚ × ℚ × ℚ :=
  composite_aux alpha_of samples 1

/-- The transmittance in front of sample `i`: the product of
`(1 - alpha)` over all samples strictly before it on the ray. -/
def transmittance_before (alpha_of : ℚ → ℚ → ℚ) (samples : List RaySample)
    (i : ℕ) : ℚ :=
  ((samples.take i).map (fun s => 1 - sample_alpha alpha_of s)).prod

/-- The compositing weight of sample `i`: its alpha value times the
transmittance accumulated in front of it. -/
def sample_weight (alpha_of : ℚ → ℚ → ℚ) (samples : List RaySample)
    (i : Fin samples.length) : ℚ :=
  transmittance_before alpha_of samples i * sample_alpha alpha_of (samples.get i)

/-- Modelled from the spec: a voxel grid holding flattened density,
feature and attention values together with its placement in space. -/
structure VoxelGridField where
  dim_x : ℕ
  dim_y : ℕ
  dim_z : ℕ
  densities : List ℚ
  features : List ℚ
  attn_values : List ℚ
  grid_min : ℚ × ℚ × ℚ
  voxel_size : ℚ
  deriving DecidableEq, Repr

/-- The value stored at integer voxel coordinates, zero outside the
grid. -/
def voxel_value (vals : List ℚ) (g : VoxelGridField) (ix iy iz : ℤ) : ℚ :=
  if 0 ≤ ix ∧ ix < (g.dim_x : ℤ) ∧ 0 ≤ iy ∧ iy < (g.dim_y : ℤ) ∧
     0 ≤ iz ∧ iz < (g.dim_z : ℤ) then
    vals.getD (ix * (g.dim_y : ℤ) * (g.dim_z : ℤ) + iy * (g.dim_z : ℤ) + iz).toNat 0
  else 0

/-- Modelled from the spec ("trilinearly interpolates density and
feature/attention values at each sample point from the discrete
grid"): the eight surrounding voxel values blended by the fractional
coordinates of the sample point. -/
def trilinear_interpolate (vals : List ℚ) (g : VoxelGridField)
    (p : ℚ × ℚ × ℚ) : ℚ :=
  let cx := (p.1 - g.grid_min.1) / g.voxel_size
  let cy := (p.2.1 - g.grid_min.2.1) / g.voxel_size
  let cz := (p.2.2 - g.grid_min.2.2) / g.voxel_size
  let ix := ⌊cx⌋
  let iy := ⌊cy⌋
  let iz := ⌊cz⌋
  let fx := cx - (ix : ℚ)
  let fy := cy - (iy : ℚ)
  let fz := cz - (iz : ℚ)
  (1 - fx) * (1 - fy) * (1 - fz) * voxel_value vals g ix iy iz +
    fx * (1 - fy) * (1 - fz) * voxel_value vals g (ix + 1) iy iz +
    (1 - fx) * fy * (1 - fz) * voxel_value vals g ix (iy + 1) iz +
    (1 - fx) * (1 - fy) * fz * voxel_value vals g ix iy (iz + 1) +
    fx * fy * (1 - fz) * voxel_value vals g (ix + 1) (iy + 1) iz +
    fx * (1 - fy) * fz * voxel_value vals g (ix + 1) iy (iz + 1) +
    (1 - fx) * fy * fz * voxel_value vals g ix (iy + 1) (iz + 1) +
    fx * fy * fz * voxel_value vals g (ix + 1) (iy + 1) (iz + 1)

/-- Modelled from the spec: the samples produced for one ray by the
sampler and the field evaluator, with the given channel values used for
the composited colour/feature output. -/
def ray_march_samples (g : VoxelGridField) (channel_vals : List ℚ) (r : Ray)
    (t_near t_far : ℚ) (num_samples : ℕ) : List RaySample :=
  (sample_distances t_near t_far num_samples).map fun t =>
    let p := point_on_ray r t
    { density := trilinear_interpolate g.densities g p,
      delta := (t_far - t_near) / (num_samples : ℚ),
      colour := trilinear_interpolate channel_vals g p,
      feature := trilinear_interpolate channel_vals g p,
      depth := t }

/-- Modelled from the spec: the full per-ray render procedure — sample,
evaluate the field, composite front to back. -/
def render_ray (g : VoxelGridField) (alpha_of : ℚ → ℚ → ℚ)
    (channel_vals : List ℚ) (r : Ray) (t_near t_far : ℚ)
    (num_samples : ℕ) : ℚ × ℚ × ℚ :=
  alpha_composite alpha_of (ray_march_samples g channel_vals r t_near t_far num_samples)

/-- Modelled from the spec: `render_rays` renders every ray of a batch
against the grid's feature channel (caller: `sds_trainer.py` line
357). -/
def render_rays (g : VoxelGridField) (alpha_of : ℚ → ℚ → ℚ)
    (rays : List Ray) (t_near t_far : ℚ) (num_samples : ℕ) :
    List (ℚ × ℚ × ℚ) :=
  rays.map fun r => render_ray g alpha_of g.features r t_near t_far num_samples

/-- Modelled from the spec: `render_rays_attn` renders every ray of a
batch against the grid's attention channel (caller:
`attn_grid_trainer.py` lines 351-355). -/
def render_rays_attn (g : VoxelGridField) (alpha_of : ℚ → ℚ → ℚ)
    (rays : List Ray) (t_near t_far : ℚ) (num_samples : ℕ) :
    List (ℚ × ℚ × ℚ) :=
  rays.map fun r => render_ray g alpha_of g.attn_values r t_near t_far num_samples

/- ----------------------------------------------------------------- -/
/- Correlation losses (sds_trainer.py lines 597-624)                  -/
/- ----------------------------------------------------------------- -/

/-- `torch.mean` of a flat tensor: the sum divided by the number of
elements. -/
noncomputable def list_mean (l : List ℝ) : ℝ :=
  l.sum / (l.length : ℝ)

/-- `torch.sigmoid`. -/
noncomputable def sigmoid (x : ℝ) : ℝ :=
  1 / (1 + Real.exp (-x))

/-- Embeds `_feature_correlation_loss` (`sds_trainer.py` lines
616-624): features are a list of per-voxel channel vectors; the loss is
the sum over voxels of the square of the channel-wise sum of
differences of the sigmoids.  The `density_cov_grid` argument is
accepted, as in the source, but never read. -/
noncomputable def feature_correlation_loss
    (sds_features regular_features : List (List ℝ))
    (_density_cov_grid : List ℝ) : ℝ :=
  let sds_features_colors := sds_features.map fun v => v.map sigmoid
  let regular_features_colors := regular_features.map fun v => v.map sigmoid
  let l2_diffs := List.zipWith
    (fun sv rv => ((List.zipWith (fun a b => a - b) sv rv).sum) ^ 2)
    sds_features_colors regular_features_colors
  l2_diffs.sum

/-- Embeds `_density_correlation_loss` (`sds_trainer.py` lines
597-614): returns `1 - mean(correlation_grid)` together with the
(detached) correlation grid, where the correlation grid is the
elementwise covariance grid divided by
`sqrt(var(sds) * var(regular)) + eps`. -/
noncomputable def density_correlation_loss
    (sds_density regular_density : List ℝ) : ℝ × List ℝ :=
  let eps : ℝ := 0.0000001
  let sds_var := list_mean (sds_density.map fun x => (x - list_mean sds_density) ^ 2)
  let regular_var :=
    list_mean (regular_density.map fun x => (x - list_mean regular_density) ^ 2)
  let denominator := Real.sqrt (sds_var * regular_var)
  let covariance_grid := List.zipWith
    (fun a b => (a - list_mean sds_density) * (b - list_mean regular_density))
    sds_density regular_density
  let correlation_grid := covariance_grid.map fun c => c / (denominator + eps)
  (1.0 - list_mean correlation_grid, correlation_grid)

/- ----------------------------------------------------------------- -/
/- Theorems                                                           -/
/- ----------------------------------------------------------------- -/

/-- C4: In both training procedures the number of whole images sampled
per iteration is `⌊ray_batch_size / (H * W)⌋`, hence the number of rays
in one batch, `batch_size_in_images * H * W`, never exceeds
`ray_batch_size`, for every `ray_batch_size ≥ 1` and positive image
height and width. -/
theorem ray_batch_bounded (ray_batch_size im_h im_w : ℕ)
    (hr : 1 ≤ ray_batch_size) (hh : 0 < im_h) (hw : 0 < im_w) :
    batch_size_in_images ray_batch_size im_h im_w =
      ray_batch_size / (im_h * im_w) ∧
    batch_size_in_images ray_batch_size im_h im_w * (im_h * im_w) ≤
      ray_batch_size := by
  have key : batch_size_in_images ray_batch_size im_h im_w =
      ray_batch_size / (im_h * im_w) := by
    unfold batch_size_in_images
    have : ((im_h : ℚ) * (im_w : ℚ)) = ((im_h * im_w : ℕ) : ℚ) := by push_cast; ring
    rw [this, Nat.floor_div_nat, Nat.floor_natCast]
  exact ⟨key, by rw [key]; exact Nat.div_mul_le_self _ _⟩

/-- Witness for C4 at `ray_batch_size = 32768`, `H = W = 128`. -/
theorem ray_batch_bounded_witness :
    batch_size_in_images 32768 128 128 = 32768 / (128 * 128) ∧
    batch_size_in_images 32768 128 128 * (128 * 128) ≤ 32768 :=
  ray_batch_bounded 32768 128 128 (by decide) (by decide) (by decide)

/-- Binding a successful `Except` computation runs the continuation. -/
theorem except_ok_bind {ε α β : Type} (a : α) (f : α → Except ε β) :
    (Except.ok a >>= f : Except ε β) = f a := rfl

/-- C5: Both SDS training procedures raise `AssertionError` — before
any output directory, optimizer, or checkpoint effect — exactly when
the supplied prompt equals `"none"`, and otherwise (including the empty
prompt) proceed past the check to those effects. -/
theorem prompt_check_guards_setup (prompt : String) :
    sds_trainer_setup true prompt =
      (if prompt = "none" then Except.error PyExn.assertionError
       else Except.ok [TrainEvent.createOutputDir, TrainEvent.createOptimizer,
         TrainEvent.saveCheckpoint]) ∧
    attn_trainer_setup true true prompt =
      (if prompt = "none" then Except.error PyExn.assertionError
       else Except.ok [TrainEvent.createOutputDir, TrainEvent.createOptimizer,
         TrainEvent.saveCheckpoint]) := by
  by_cases h : prompt = "none"
  · subst h
    exact ⟨rfl, rfl⟩
  · have hb : (prompt != "none") = true := by
      simpa [bne_iff_ne] using h
    constructor <;>
      simp [sds_trainer_setup, attn_trainer_setup, hb, pyAssert, except_ok_bind, h]

/-- C8: With `use_uncertainty = True`, the optimizer parameter-group
setup evaluates the set literal `{{"params": logvars, "lr": ...}}`,
whose element is an unhashable dict, and therefore raises `TypeError`
before the optimizer is created and before any training iteration
runs (the success trace is never produced). -/
theorem uncertainty_params_type_error (current_stage_lr : ℚ) :
    adam_params_setup true current_stage_lr = Except.error PyExn.typeError := rfl

/-- The length of a masked replacement. -/
theorem masked_replace_length {α : Type} (attn : List ℚ) (current reference : List α) :
    (masked_replace attn current reference).length =
      min attn.length (min current.length reference.length) := by
  simp [masked_replace]

/-- C3: In the post-stage grid refinement of `refine_edited_relu_field`,
every voxel whose attention value in `vol_mod_output`'s grid is zero
keeps the output model's density and feature values, and every voxel
with a non-zero attention value receives the corresponding density and
feature values of `vol_mod_ref`. -/
theorem refine_edited_grids_masked_update
    (attn densities_out densities_ref : List ℚ)
    (features_out features_ref : List (List ℚ))
    (hdo : densities_out.length = attn.length)
    (hdr : densities_ref.length = attn.length)
    (hfo : features_out.length = attn.length)
    (hfr : features_ref.length = attn.length)
    (i : ℕ) (hi : i < attn.length) :
    (attn.get ⟨i, hi⟩ = 0 →
      (refine_edited_grids attn densities_out densities_ref features_out
          features_ref).1.get
          ⟨i, by simp [refine_edited_grids, masked_replace]; omega⟩ =
        densities_out.get ⟨i, by omega⟩ ∧
      (refine_edited_grids attn densities_out densities_ref features_out
          features_ref).2.get
          ⟨i, by simp [refine_edited_grids, masked_replace]; omega⟩ =
        features_out.get ⟨i, by omega⟩) ∧
    (attn.get ⟨i, hi⟩ ≠ 0 →
      (refine_edited_grids attn densities_out densities_ref features_out
          features_ref).1.get
          ⟨i, by simp [refine_edited_grids, masked_replace]; omega⟩ =
        densities_ref.get ⟨i, by omega⟩ ∧
      (refine_edited_grids attn densities_out densities_ref features_out
          features_ref).2.get
          ⟨i, by simp [refine_edited_grids, masked_replace]; omega⟩ =
        features_ref.get ⟨i, by omega⟩) := by
  constructor
  · intro hz
    constructor <;>
      · simp only [refine_edited_grids, masked_replace, List.get_eq_getElem,
          List.getElem_zipWith, List.getElem_zip]
        simp only [List.get_eq_getElem] at hz
        simp [hz]
  · intro hnz
    constructor <;>
      · simp only [refine_edited_grids, masked_replace, List.get_eq_getElem,
          List.getElem_zipWith, List.getElem_zip]
        simp only [List.get_eq_getElem] at hnz
        simp [hnz]

/-- Witness for C3 on a two-voxel grid with attention values `[0, 2]`:
voxel `1` has non-zero attention, so its density becomes the reference
density `8` and its feature vector the reference vector `[4]`. -/
theorem refine_edited_grids_masked_update_witness :
    (refine_edited_grids [0, 2] [5, 6] [7, 8] [[1], [2]]
        [[3], [4]]).1.get ⟨1, by decide⟩ = (8 : ℚ) ∧
    (refine_edited_grids [0, 2] [5, 6] [7, 8] [[1], [2]]
        [[3], [4]]).2.get ⟨1, by decide⟩ = [(4 : ℚ)] := by
  have h := (refine_edited_grids_masked_update [0, 2] [5, 6] [7, 8]
    [[1], [2]] [[3], [4]] rfl rfl rfl rfl 1 (by decide)).2 (by decide)
  exact ⟨h.1, h.2⟩

/-- C7: `cast_rays` yields one ray per pixel — a height-length list of
width-length rows — and `flatten_rays` preserves the total count
`height * width`. -/
theorem cast_rays_pixel_count (intrinsics : CameraIntrinsics) (pose : CameraPose) :
    (cast_rays intrinsics pose).length = intrinsics.height ∧
    (∀ row : Fin (cast_rays intrinsics pose).length,
      ((cast_rays intrinsics pose).get row).length = intrinsics.width) ∧
    (flatten_rays (cast_rays intrinsics pose)).length =
      intrinsics.height * intrinsics.width := by
  refine ⟨by simp [cast_rays], ?_, ?_⟩
  · intro row
    simp [cast_rays]
  · simp only [flatten_rays, cast_rays, List.length_flatten, List.map_map,
      Function.comp_def, List.length_map, List.length_range]
    simp [List.map_const', List.sum_replicate, mul_comm]

/-- The inter-sample distances of uniformly spaced sample distances are
all equal to the uniform step `(t_far - t_near) / num_samples`. -/
theorem sample_deltas_uniform (t_near t_far : ℚ) (num_samples : ℕ) :
    sample_deltas (sample_distances t_near t_far num_samples) =
      List.replicate (num_samples - 1) ((t_far - t_near) / (num_samples : ℚ)) := by
  apply List.ext_getElem
  · simp [sample_deltas, sample_distances]
  · intro i h1 h2
    simp only [sample_deltas, sample_distances, List.getElem_zipWith,
      List.getElem_tail, List.getElem_map, List.getElem_range,
      List.getElem_replicate]
    push_cast
    ring

/-- The sample distances along a ray are in non-decreasing order
whenever the intersection interval is non-degenerate. -/
theorem sample_distances_sorted (t_near t_far : ℚ) (num_samples : ℕ)
    (h : t_near ≤ t_far) :
    (sample_distances t_near t_far num_samples).Pairwise (· ≤ ·) := by
  unfold sample_distances
  rw [List.pairwise_map]
  refine List.Pairwise.imp ?_ (List.pairwise_lt_range num_samples)
  intro a b hab
  have hs : 0 ≤ (t_far - t_near) / (num_samples : ℚ) :=
    div_nonneg (by linarith) (by positivity)
  have hab' : (a : ℚ) ≤ (b : ℚ) := by exact_mod_cast hab.le
  have := mul_le_mul_of_nonneg_right hab' hs
  linarith

/-- C6: For every ray whose intersection with the bounding volume is
the interval `[t_near, t_far]`, the grid sampler produces a finite list
of sample points whose distances along the ray are in non-decreasing
front-to-back order, together with the inter-sample distances between
consecutive samples, each equal to the non-negative uniform step. -/
theorem grid_sampler_ordered (r : Ray) (t_near t_far : ℚ) (num_samples : ℕ)
    (h : t_near ≤ t_far) :
    (grid_sampler r t_near t_far num_samples).2.1.Pairwise (· ≤ ·) ∧
    (grid_sampler r t_near t_far num_samples).2.2 =
      List.replicate (num_samples - 1) ((t_far - t_near) / (num_samples : ℚ)) ∧
    0 ≤ (t_far - t_near) / (num_samples : ℚ) ∧
    (grid_sampler r t_near t_far num_samples).1 =
      ((grid_sampler r t_near t_far num_samples).2.1).map (point_on_ray r) := by
  exact ⟨sample_distances_sorted t_near t_far num_samples h,
    sample_deltas_uniform t_near t_far num_samples,
    div_nonneg (by linarith) (by positivity), rfl⟩

/-- Witness for C6 on a concrete ray marched with four samples over the
interval `[0, 1]`. -/
theorem grid_sampler_ordered_witness :
    (grid_sampler ⟨(0, 0, 0), (1, 0, 0)⟩ 0 1 4).2.1.Pairwise (· ≤ ·) ∧
    (grid_sampler ⟨(0, 0, 0), (1, 0, 0)⟩ 0 1 4).2.2 =
      List.replicate (4 - 1) ((1 - 0) / ((4 : ℕ) : ℚ)) ∧
    0 ≤ (1 - 0) / ((4 : ℕ) : ℚ) ∧
    (grid_sampler ⟨(0, 0, 0), (1, 0, 0)⟩ 0 1 4).1 =
      ((grid_sampler ⟨(0, 0, 0), (1, 0, 0)⟩ 0 1 4).2.1).map
        (point_on_ray ⟨(0, 0, 0), (1, 0, 0)⟩) :=
  grid_sampler_ordered ⟨(0, 0, 0), (1, 0, 0)⟩ 0 1 4 (by norm_num)

instance : Inhabited RaySample :=
  ⟨⟨0, 0, 0, 0, 0⟩⟩

/-- The mathematical closed form of front-to-back alpha compositing for
one output channel: each sample contributes its channel value weighted
by its alpha value times the product of `(1 - alpha)` over all samples
in front of it. -/
def weighted_channel_sum (alpha_of : ℚ → ℚ → ℚ) (samples : List RaySample)
    (channel : RaySample → ℚ) : ℚ :=
  ((List.range samples.length).map fun i : ℕ =>
    transmittance_before alpha_of samples i *
      sample_alpha alpha_of (samples.getD i default) *
      channel (samples.getD i default)).sum

/-- Unfolding `weighted_channel_sum` over a cons: the head sample
contributes at full transmittance and the tail contributes attenuated
by `(1 - alpha)` of the head. -/
theorem weighted_channel_sum_cons (alpha_of : ℚ → ℚ → ℚ) (s : RaySample)
    (rest : List RaySample) (channel : RaySample → ℚ) :
    weighted_channel_sum alpha_of (s :: rest) channel =
      sample_alpha alpha_of s * channel s +
        (1 - sample_alpha alpha_of s) *
          weighted_channel_sum alpha_of rest channel := by
  have htb : ∀ i : ℕ, transmittance_before alpha_of (s :: rest) (i + 1) =
      (1 - sample_alpha alpha_of s) * transmittance_before alpha_of rest i := by
    intro i
    simp [transmittance_before, List.take_succ_cons]
  unfold weighted_channel_sum
  rw [List.length_cons, List.range_succ_eq_map, List.map_cons, List.sum_cons,
    List.map_map]
  congr 1
  · simp [transmittance_before]
  · have hmap : ((List.range rest.length).map
        ((fun i : ℕ =>
          transmittance_before alpha_of (s :: rest) i *
            sample_alpha alpha_of ((s :: rest).getD i default) *
            channel ((s :: rest).getD i default)) ∘ Nat.succ)) =
        (List.range rest.length).map fun i : ℕ =>
          (1 - sample_alpha alpha_of s) *
            (transmittance_before alpha_of rest i *
              sample_alpha alpha_of (rest.getD i default) *
              channel (rest.getD i default)) := by
      apply List.map_congr_left
      intro i _
      simp only [Function.comp_apply, htb i, List.getD_cons_succ]
      ring
    rw [hmap, List.sum_map_mul_left]

/-- The compositing fold with an arbitrary incoming transmittance
equals the incoming transmittance times the closed-form weighted sums
of the three channels. -/
theorem composite_aux_closed (alpha_of : ℚ → ℚ → ℚ) (samples : List RaySample) :
    ∀ transmittance : ℚ,
      composite_aux alpha_of samples transmittance =
        (transmittance * weighted_channel_sum alpha_of samples (fun s => s.colour),
         transmittance * weighted_channel_sum alpha_of samples (fun s => s.feature),
         transmittance * weighted_channel_sum alpha_of samples (fun s => s.depth)) := by
  induction samples with
  | nil =>
    intro transmittance
    simp [composite_aux, weighted_channel_sum]
  | cons s rest ih =>
    intro transmittance
    simp only [composite_aux]
    rw [ih, weighted_channel_sum_cons, weighted_channel_sum_cons,
      weighted_channel_sum_cons]
    simp only [Prod.mk.injEq]
    refine ⟨?_, ?_, ?_⟩ <;> ring

/-- C1: For every density-to-alpha conversion, every ray and every
voxel-indexed field, the compositor computes the per-ray colour,
feature and depth outputs as the front-to-back alpha-composited
weighted sums: each sample's channel values are weighted by its alpha
value (obtained from its density and inter-sample distance) times the
accumulated transmittance of the samples in front of it. -/
theorem alpha_composite_front_to_back (alpha_of : ℚ → ℚ → ℚ)
    (samples : List RaySample) (g : VoxelGridField) (channel_vals : List ℚ)
    (r : Ray) (t_near t_far : ℚ) (num_samples : ℕ) :
    alpha_composite alpha_of samples =
      (weighted_channel_sum alpha_of samples (fun s => s.colour),
       weighted_channel_sum alpha_of samples (fun s => s.feature),
       weighted_channel_sum alpha_of samples (fun s => s.depth)) ∧
    render_ray g alpha_of channel_vals r t_near t_far num_samples =
      (weighted_channel_sum alpha_of
        (ray_march_samples g channel_vals r t_near t_far num_samples)
        (fun s => s.colour),
       weighted_channel_sum alpha_of
        (ray_march_samples g channel_vals r t_near t_far num_samples)
        (fun s => s.feature),
       weighted_channel_sum alpha_of
        (ray_march_samples g channel_vals r t_near t_far num_samples)
        (fun s => s.depth)) := by
  constructor
  · rw [alpha_composite, composite_aux_closed]
    simp
  · rw [render_ray, alpha_composite, composite_aux_closed]
    simp

/-- C2: The renderer is deterministic: two invocations of the render
procedure — including the attention-rendering variant
`render_rays_attn` — on the same rays, the same voxel-indexed
density/feature field and the same render settings produce identical
per-ray outputs. -/
theorem renderer_deterministic (g g' : VoxelGridField)
    (alpha_of alpha_of' : ℚ → ℚ → ℚ) (rays rays' : List Ray)
    (t_near t_near' t_far t_far' : ℚ) (num_samples num_samples' : ℕ)
    (hg : g = g') (ha : alpha_of = alpha_of') (hr : rays = rays')
    (hn : t_near = t_near') (hf : t_far = t_far')
    (hs : num_samples = num_samples') :
    render_rays g alpha_of rays t_near t_far num_samples =
      render_rays g' alpha_of' rays' t_near' t_far' num_samples' ∧
    render_rays_attn g alpha_of rays t_near t_far num_samples =
      render_rays_attn g' alpha_of' rays' t_near' t_far' num_samples' := by
  subst hg ha hr hn hf hs
  exact ⟨rfl, rfl⟩

/-- Witness for C2: two invocations on a concrete one-voxel grid and a
concrete ray agree. -/
theorem renderer_deterministic_witness :
    render_rays ⟨1, 1, 1, [1], [2], [3], (0, 0, 0), 1⟩ (fun d t => d * t)
        [⟨(0, 0, 0), (0, 0, 1)⟩] 0 1 2 =
      render_rays ⟨1, 1, 1, [1], [2], [3], (0, 0, 0), 1⟩ (fun d t => d * t)
        [⟨(0, 0, 0), (0, 0, 1)⟩] 0 1 2 ∧
    render_rays_attn ⟨1, 1, 1, [1], [2], [3], (0, 0, 0), 1⟩ (fun d t => d * t)
        [⟨(0, 0, 0), (0, 0, 1)⟩] 0 1 2 =
      render_rays_attn ⟨1, 1, 1, [1], [2], [3], (0, 0, 0), 1⟩ (fun d t => d * t)
        [⟨(0, 0, 0), (0, 0, 1)⟩] 0 1 2 :=
  renderer_deterministic _ _ _ _ _ _ _ _ _ _ _ _ rfl rfl rfl rfl rfl rfl

/-- C9: `_feature_correlation_loss` does not depend on its
`density_cov_grid` argument; its value is the sum over voxels of the
square of the channel-wise sum of differences of the sigmoids of the
two feature tensors; it is non-negative, and it vanishes when the two
feature tensors coincide. -/
theorem feature_correlation_loss_ignores_cov_grid
    (sds_features regular_features : List (List ℝ))
    (cov_grid_a cov_grid_b : List ℝ) :
    feature_correlation_loss sds_features regular_features cov_grid_a =
      feature_correlation_loss sds_features regular_features cov_grid_b ∧
    feature_correlation_loss sds_features regular_features cov_grid_a =
      (List.zipWith
        (fun sv rv =>
          ((List.zipWith (fun a b => sigmoid a - sigmoid b) sv rv).sum) ^ 2)
        sds_features regular_features).sum ∧
    0 ≤ feature_correlation_loss sds_features regular_features cov_grid_a ∧
    feature_correlation_loss sds_features sds_features cov_grid_a = 0 := by
  have hshape : feature_correlation_loss sds_features regular_features cov_grid_a =
      (List.zipWith
        (fun sv rv =>
          ((List.zipWith (fun a b => sigmoid a - sigmoid b) sv rv).sum) ^ 2)
        sds_features regular_features).sum := by
    simp only [feature_correlation_loss, List.zipWith_map]
  have hnn : ∀ (u v : List (List ℝ)),
      0 ≤ (List.zipWith
        (fun sv rv =>
          ((List.zipWith (fun a b => sigmoid a - sigmoid b) sv rv).sum) ^ 2)
        u v).sum := by
    intro u
    induction u with
    | nil => intro v; simp
    | cons sv u ih =>
      intro v
      cases v with
      | nil => simp
      | cons rv v =>
        simp only [List.zipWith_cons_cons, List.sum_cons]
        have := ih v
        positivity
  refine ⟨rfl, hshape, ?_, ?_⟩
  · rw [hshape]
    exact hnn sds_features regular_features
  · simp only [feature_correlation_loss, List.zipWith_same, sub_self]
    simp [Function.comp_def, List.map_const', List.sum_replicate]

/-- Pointwise commutation of the covariance grid: zipping `a` against
`b` with centred products equals zipping `b` against `a` with the
factors swapped. -/
theorem centred_product_zip_comm (m₁ m₂ : ℝ) (a b : List ℝ) :
    List.zipWith (fun x y => (x - m₂) * (y - m₁)) b a =
      List.zipWith (fun x y => (x - m₁) * (y - m₂)) a b := by
  rw [List.zipWith_comm]
  congr 1
  funext x y
  ring

/-- C10: The scalar (first) component of `_density_correlation_loss` is
symmetric in its two density arguments of equal shape. -/
theorem density_correlation_loss_symm (a b : List ℝ)
    (h : a.length = b.length) :
    (density_correlation_loss a b).1 = (density_correlation_loss b a).1 := by
  simp only [density_correlation_loss]
  rw [centred_product_zip_comm (list_mean a) (list_mean b) a b,
    mul_comm (list_mean (List.map (fun x => (x - list_mean b) ^ 2) b))
      (list_mean (List.map (fun x => (x - list_mean a) ^ 2) a))]

/-- Witness for C10 on two concrete equal-length density grids. -/
theorem density_correlation_loss_symm_witness :
    ([1, 2] : List ℝ).length = ([0, 3] : List ℝ).length ∧
    (density_correlation_loss [1, 2] [0, 3]).1 =
      (density_correlation_loss [0, 3] [1, 2]).1 :=
  ⟨rfl, density_correlation_loss_symm [1, 2] [0, 3] rfl⟩
